import Mathlib

/-!
Shallow embedding of the blogicum blog application
(src/blogicum/blog/views.py, src/blogicum/blog/forms.py,
src/blogicum/blog/urls.py), verifying the visibility and ownership
rules documented in spec.md.

The database schema (models.py) is not part of the sources; the entity
records below are modelled from the spec, section 3.  All view logic is
translated from views.py.  Django query-set operations are translated by
their documented semantics: `filter(category__is_published=True)` is an
inner join, so a row whose category reference is null is excluded;
`order_by("-pub_date")` constrains the returned sequence to be a
permutation of the result set that is non-increasing in `pub_date`,
with the relative order of rows of equal key left unspecified.
-/

namespace Blogicum

/-- Modelled from the spec: Category entity (`id`, `slug` unique,
`is_published`); models.py is absent from src. -/
structure Category where
  id : Nat
  slug : String
  is_published : Bool
deriving DecidableEq

/-- Modelled from the spec: Post entity.  `author` and `category` are
stored as foreign keys (user id, optional category id); the spec calls
`category` an optional reference. -/
structure Post where
  id : Nat
  author : Nat
  category : Option Nat
  is_published : Bool
  pub_date : Nat
  text : String
deriving DecidableEq

/-- Modelled from the spec: Comment entity; `post_id` is the foreign key
to the parent Post, `author` the authoring user id. -/
structure Comment where
  id : Nat
  post_id : Nat
  author : Nat
  text : String
deriving DecidableEq

/-- Modelled from the spec: User entity of the external authentication
collaborator. -/
structure User where
  id : Nat
  username : String
  first_name : String
  last_name : String
  email : String
deriving DecidableEq

/-- The backing store as seen by the view layer. -/
structure DB where
  users : List User
  categories : List Category
  posts : List Post
  comments : List Comment
deriving DecidableEq

/-- The requesting identity: Django request.user is either the
AnonymousUser or an authenticated user. -/
inductive Requester where
  | anonymous : Requester
  | auth : Nat → Requester
deriving DecidableEq

/-- The externally observable outcomes of a view dispatch: success,
a 404 page, a PermissionDenied (403), the LoginRequiredMixin redirect
to the login flow, or an HttpResponseRedirect to a post detail page. -/
inductive Response where
  | ok : Response
  | notFound : Response
  | forbidden : Response
  | redirectLogin : Response
  | redirectPostDetail : Nat → Response
deriving DecidableEq

/-- Python comparison `instance.author != request.user`, negated:
the AnonymousUser never equals a stored user. -/
def authorEq : Requester → Nat → Bool
  | .anonymous, _ => false
  | .auth u, a => u == a

def DB.findCategory (db : DB) (cid : Nat) : Option Category :=
  db.categories.find? (fun c => c.id == cid)

def DB.findPost (db : DB) (pid : Nat) : Option Post :=
  db.posts.find? (fun p => p.id == pid)

def DB.findUserByName (db : DB) (uname : String) : Option User :=
  db.users.find? (fun u => u.username == uname)

/-- Django filter `category__is_published=True`: an inner join on the
category table, so a post whose `category` is null, or whose category
row is absent, is excluded. -/
def categoryJoinPublished (db : DB) (p : Post) : Bool :=
  match p.category with
  | none => false
  | some cid =>
    match db.findCategory cid with
    | none => false
    | some c => c.is_published

/-- PostDetailView condition `instance.category and not
instance.category.is_published`: true when the post has a category and
that category is unpublished. -/
def categoryHiddenB (db : DB) (p : Post) : Bool :=
  match p.category with
  | none => false
  | some cid =>
    match db.findCategory cid with
    | none => false
    | some c => !c.is_published

/-- PostListView.get_queryset row filter (views.py lines 54-57):
`pub_date__lt=now, is_published=True, category__is_published=True`. -/
def postListFilter (db : DB) (now : Nat) (p : Post) : Bool :=
  decide (p.pub_date < now) && p.is_published && categoryJoinPublished db p

/-- The rows of the public feed (PostListView.get_queryset), before
ordering. -/
def postListQueryset (db : DB) (now : Nat) : List Post :=
  db.posts.filter (postListFilter db now)

/-- Count("comment"): the number of comment rows whose post foreign key
is this post; the annotation carries no further filter. -/
def commentCount (db : DB) (p : Post) : Nat :=
  (db.comments.filter (fun c => c.post_id == p.id)).length

/-- `.annotate(comment_count=Count("comment"))` over a row list. -/
def annotateCommentCount (db : DB) (ps : List Post) : List (Post × Nat) :=
  ps.map (fun p => (p, commentCount db p))

/-- The annotated public feed rows. -/
def postListAnnotated (db : DB) (now : Nat) : List (Post × Nat) :=
  annotateCommentCount db (postListQueryset db now)

/-- CategoryListView.get_queryset (views.py lines 166-179): first
get_object_or_404(Category, slug, is_published=True), then
filter(category=self.category, pub_date__lt=now,
category__is_published=True, is_published=True).  `none` is the 404. -/
def categoryQueryset (db : DB) (now : Nat) (slug : String) :
    Option (List Post) :=
  match db.categories.find? (fun c => c.slug == slug && c.is_published) with
  | none => none
  | some cat =>
    some (db.posts.filter (fun p =>
      p.category == some cat.id && decide (p.pub_date < now)
        && categoryJoinPublished db p && p.is_published))

/-- The annotated category page rows. -/
def categoryAnnotated (db : DB) (now : Nat) (slug : String) :
    Option (List (Post × Nat)) :=
  (categoryQueryset db now slug).map (annotateCommentCount db)

/-- ProfileView.get_queryset (views.py lines 192-202):
get_object_or_404(User, username) then filter(author=self.author) with
no visibility conditions.  `none` is the 404. -/
def profileQueryset (db : DB) (uname : String) : Option (List Post) :=
  match db.findUserByName uname with
  | none => none
  | some u => some (db.posts.filter (fun p => p.author == u.id))

/-- The annotated profile page rows. -/
def profileAnnotated (db : DB) (uname : String) :
    Option (List (Post × Nat)) :=
  (profileQueryset db uname).map (annotateCommentCount db)

/-- PostDetailView.dispatch (views.py lines 84-92): fetch the post
(404 when absent), then render the 404 page when the requester is not
the author and the post is unpublished, in a hidden category, or dated
in the future; otherwise proceed. -/
def postDetailDispatch (db : DB) (now : Nat) (r : Requester) (pk : Nat) :
    Response :=
  match db.findPost pk with
  | none => .notFound
  | some inst =>
    if (!authorEq r inst.author && !inst.is_published)
        || (!authorEq r inst.author && categoryHiddenB db inst)
        || (!authorEq r inst.author && decide (now < inst.pub_date))
    then .notFound
    else .ok

/-- PostCreateView: LoginRequiredMixin, no further gate. -/
def postCreateDispatch (r : Requester) : Response :=
  match r with
  | .anonymous => .redirectLogin
  | .auth _ => .ok

/-- PostUpdateView.dispatch (views.py lines 105-110): the class-defined
dispatch runs before LoginRequiredMixin, fetches the post (404 when
absent) and redirects any non-author — the AnonymousUser included — to
the post detail page; only then does the mixin's login check run. -/
def postUpdateDispatch (db : DB) (r : Requester) (pk : Nat) : Response :=
  match db.findPost pk with
  | none => .notFound
  | some inst =>
    if !authorEq r inst.author then .redirectPostDetail inst.id
    else
      match r with
      | .anonymous => .redirectLogin
      | .auth _ => .ok

/-- PostDeleteView.dispatch (views.py lines 123-127): class-defined
dispatch runs before LoginRequiredMixin and raises PermissionDenied for
any non-author, the AnonymousUser included. -/
def postDeleteDispatch (db : DB) (r : Requester) (pk : Nat) : Response :=
  match db.findPost pk with
  | none => .notFound
  | some inst =>
    if !authorEq r inst.author then .forbidden
    else
      match r with
      | .anonymous => .redirectLogin
      | .auth _ => .ok

/-- CommentMixin.get_object (views.py lines 33-37):
get_object_or_404(Comment, pk=comment_pk, post_id=post_pk). -/
def commentGetObject (db : DB) (post_pk comment_pk : Nat) :
    Option Comment :=
  db.comments.find? (fun c => c.id == comment_pk && c.post_id == post_pk)

/-- CommentMixin.dispatch (views.py lines 39-43), shared by
CommentUpdateView and CommentDeleteView: get_object (404 on no match),
PermissionDenied for any non-author — the mixin precedes
LoginRequiredMixin in the bases, so this runs first. -/
def commentMutationDispatch (db : DB) (r : Requester)
    (post_pk comment_pk : Nat) : Response :=
  match commentGetObject db post_pk comment_pk with
  | none => .notFound
  | some inst =>
    if !authorEq r inst.author then .forbidden
    else
      match r with
      | .anonymous => .redirectLogin
      | .auth _ => .ok

/-- CommentCreateView.dispatch (views.py lines 135-137):
get_object_or_404(Post, pk) runs before the LoginRequiredMixin check. -/
def commentCreateDispatch (db : DB) (r : Requester) (pk : Nat) :
    Response :=
  match db.findPost pk with
  | none => .notFound
  | some _ =>
    match r with
    | .anonymous => .redirectLogin
    | .auth _ => .ok

/-- CommentForm (forms.py lines 19-23) exposes only the text field;
author and post can not arrive through the form. -/
structure CommentFormData where
  text : String
deriving DecidableEq

/-- CommentCreateView (views.py lines 130-142): resolve the post from
the path (404 when absent), require login, then form_valid sets
author from the request and post from the resolved object. -/
def commentCreate (db : DB) (r : Requester) (pk : Nat)
    (fd : CommentFormData) (newId : Nat) : Except Response Comment :=
  match db.findPost pk with
  | none => .error .notFound
  | some post =>
    match r with
    | .anonymous => .error .redirectLogin
    | .auth u => .ok { id := newId, post_id := post.id, author := u,
                       text := fd.text }

/-- The fields that ProfileUpdateView exposes (views.py lines 213-218). -/
structure ProfileFormData where
  username : String
  first_name : String
  last_name : String
  email : String
deriving DecidableEq

/-- ProfileUpdateView (views.py lines 210-229): dispatch resolves the
target user by the username in the path (404 when absent) before the
LoginRequiredMixin login check; no comparison of requester and target
is ever made, and the update writes the form fields back to the target
row. -/
def profileUpdate (db : DB) (r : Requester) (uname : String)
    (fd : ProfileFormData) : Response × List User :=
  match db.findUserByName uname with
  | none => (.notFound, db.users)
  | some target =>
    match r with
    | .anonymous => (.redirectLogin, db.users)
    | .auth _ =>
      (.ok, db.users.map (fun u =>
        if u.id == target.id then
          { u with username := fd.username, first_name := fd.first_name,
                   last_name := fd.last_name, email := fd.email }
        else u))

/-- True when a row list is non-increasing in `pub_date` between
adjacent rows, the guarantee of `order_by("-pub_date")`. -/
def sortedDescB : List Post → Bool
  | [] => true
  | [_] => true
  | a :: b :: rest =>
    decide (b.pub_date ≤ a.pub_date) && sortedDescB (b :: rest)

/-- A sequence admissible as the rendered public feed: a permutation of
the feed rows that is non-increasing in `pub_date`.  SQL leaves the
relative order of equal-key rows unspecified, so this relation is the
whole of what `order_by("-pub_date")` promises. -/
def postListOrdered (db : DB) (now : Nat) (out : List Post) : Prop :=
  out.Perm (postListQueryset db now) ∧ sortedDescB out = true

instance (db : DB) (now : Nat) (out : List Post) :
    Decidable (postListOrdered db now out) := by
  unfold postListOrdered; infer_instance

/-- Written from the words of the spec, section 3: the category clause
of public visibility, `category is null OR category.is_published`. -/
def categoryOkSpec (db : DB) (p : Post) : Bool :=
  match p.category with
  | none => true
  | some cid =>
    match db.findCategory cid with
    | none => false
    | some c => c.is_published

/-- Written from the words of the spec, section 3: a Post is publicly
visible iff is_published, pub_date at or before now, and category null
or published. -/
def publiclyVisibleSpec (db : DB) (now : Nat) (p : Post) : Bool :=
  p.is_published && decide (p.pub_date ≤ now) && categoryOkSpec db p

/-- Referential integrity of the category foreign key of one post: when
the post names a category, that category row exists. -/
def categoryFKOk (db : DB) (p : Post) : Bool :=
  match p.category with
  | none => true
  | some cid => (db.findCategory cid).isSome

theorem categoryJoinPublished_iff (db : DB) (p : Post) :
    categoryJoinPublished db p = true ↔
      ∃ cid c, p.category = some cid ∧ db.findCategory cid = some c ∧
        c.is_published = true := by
  unfold categoryJoinPublished
  cases hcat : p.category with
  | none => simp
  | some cid =>
    cases hf : db.findCategory cid with
    | none => simp [hf]
    | some c => simp [hf]

theorem not_categoryHiddenB_of_fkOk (db : DB) (p : Post)
    (hfk : categoryFKOk db p = true) :
    (!categoryHiddenB db p) = categoryOkSpec db p := by
  cases hcat : p.category with
  | none => simp [categoryHiddenB, categoryOkSpec, hcat]
  | some cid =>
    cases hf : db.findCategory cid with
    | none =>
      exfalso
      simp [categoryFKOk, hcat, hf] at hfk
    | some c =>
      simp [categoryHiddenB, categoryOkSpec, hcat, hf]

/-! Concrete fixtures used by counterexamples and witnesses. -/

def catPub : Category := { id := 10, slug := "news", is_published := true }

def catHid : Category := { id := 11, slug := "old", is_published := false }

def alice : User :=
  { id := 1, username := "alice", first_name := "A", last_name := "L",
    email := "a@x" }

def bob : User :=
  { id := 2, username := "bob", first_name := "B", last_name := "M",
    email := "b@x" }

/-- A published, past-dated post with no category. -/
def pNoCat : Post :=
  { id := 1, author := 1, category := none, is_published := true,
    pub_date := 0, text := "nc" }

def dbC1 : DB :=
  { users := [], categories := [], posts := [pNoCat], comments := [] }

/-- A visible post of alice in the published category. -/
def pv : Post :=
  { id := 1, author := 1, category := some 10, is_published := true,
    pub_date := 5, text := "v" }

/-- An unpublished post of alice. -/
def pu : Post :=
  { id := 2, author := 1, category := none, is_published := false,
    pub_date := 5, text := "u" }

def cm1 : Comment := { id := 1, post_id := 1, author := 1, text := "x" }

def cm2 : Comment := { id := 2, post_id := 1, author := 2, text := "y" }

def dbW : DB :=
  { users := [alice, bob], categories := [catPub, catHid],
    posts := [pv, pu], comments := [cm1, cm2] }

/-- C1: the public feed filter as written: membership characterisation
used below. -/
theorem mem_postListQueryset (db : DB) (now : Nat) (p : Post) :
    p ∈ postListQueryset db now ↔
      p ∈ db.posts ∧ p.is_published = true ∧ p.pub_date < now ∧
        categoryJoinPublished db p = true := by
  simp only [postListQueryset, List.mem_filter, postListFilter,
    Bool.and_eq_true, decide_eq_true_eq]
  tauto

/-- C1 counterexample: a published, past-dated post with no category is
publicly visible by the words of the spec, yet the public feed query
excludes it (`category__is_published=True` is an inner join), so the
claimed iff fails. -/
theorem C1_counterexample :
    publiclyVisibleSpec dbC1 1 pNoCat = true ∧
      pNoCat ∈ dbC1.posts ∧ postListQueryset dbC1 1 = [] := by
  refine ⟨by decide, by decide, by decide⟩

/-- C1 amended: a Post appears in the public feed iff it is stored,
is_published, pub_date strictly before now, and its category reference
is non-null and names a published category; posts with a null category
never appear, and a post dated exactly now is excluded. -/
theorem C1_feed_membership (db : DB) (now : Nat) (p : Post) :
    p ∈ postListQueryset db now ↔
      p ∈ db.posts ∧ p.is_published = true ∧ p.pub_date < now ∧
        ∃ cid c, p.category = some cid ∧ db.findCategory cid = some c ∧
          c.is_published = true := by
  rw [mem_postListQueryset, categoryJoinPublished_iff]

/-- C2: for an existing Post whose category foreign key is intact,
direct viewing succeeds iff the requester is the author or the post is
publicly visible by the words of the spec; every denial is the 404
response, whichever visibility condition failed. -/
theorem C2_detail_access (db : DB) (now : Nat) (r : Requester) (pk : Nat)
    (p : Post) (hp : db.findPost pk = some p)
    (hfk : categoryFKOk db p = true) :
    (postDetailDispatch db now r pk = .ok ↔
      (authorEq r p.author = true ∨ publiclyVisibleSpec db now p = true)) ∧
    (postDetailDispatch db now r pk ≠ .ok →
      postDetailDispatch db now r pk = .notFound) := by
  have hcat := not_categoryHiddenB_of_fkOk db p hfk
  unfold postDetailDispatch
  rw [hp]
  cases ha : authorEq r p.author <;>
    cases hpub : p.is_published <;>
      cases hhid : categoryHiddenB db p <;>
        by_cases hnow : now < p.pub_date <;>
          simp_all [publiclyVisibleSpec, Nat.not_lt]

/-- C2 witness: a non-author views an existing, published, past-dated,
published-category post. -/
theorem C2_witness :
    (postDetailDispatch dbW 10 (.auth 2) 1 = .ok ↔
      (authorEq (.auth 2) pv.author = true ∨
        publiclyVisibleSpec dbW 10 pv = true)) ∧
    (postDetailDispatch dbW 10 (.auth 2) 1 ≠ .ok →
      postDetailDispatch dbW 10 (.auth 2) 1 = .notFound) :=
  C2_detail_access dbW 10 (.auth 2) 1 pv (by decide) (by decide)

/-- A post of author 1 used for mutation-denial scenarios. -/
def pA : Post :=
  { id := 3, author := 1, category := some 10, is_published := true,
    pub_date := 5, text := "m" }

/-- A comment of author 1 on that post. -/
def cA : Comment := { id := 1, post_id := 3, author := 1, text := "c" }

def dbC3 : DB :=
  { users := [alice, bob], categories := [catPub], posts := [pA],
    comments := [cA] }

/-- C3 counterexample: the authenticated non-author user 2 is denied a
post edit by a redirect to the post detail page, but denied a post
delete and a comment mutation by PermissionDenied — two distinct DENY
presentations, so no single uniform policy is applied. -/
theorem C3_counterexample :
    postUpdateDispatch dbC3 (.auth 2) 3 = .redirectPostDetail 3 ∧
      postDeleteDispatch dbC3 (.auth 2) 3 = .forbidden ∧
      commentMutationDispatch dbC3 (.auth 2) 3 1 = .forbidden ∧
      Response.redirectPostDetail 3 ≠ Response.forbidden := by
  refine ⟨by decide, by decide, by decide, by decide⟩

/-- C3 amended: an authenticated non-author is denied a Post edit by a
redirect to that post's detail page, and denied a Post delete, a
Comment edit or a Comment delete by a forbidden-action error; the
presentation is uniform within each view but differs between Post edit
and the other three mutation paths. -/
theorem C3_deny_presentations (db : DB) (u pk ppk cpk : Nat) :
    (∀ p, db.findPost pk = some p → p.author ≠ u →
      postUpdateDispatch db (.auth u) pk = .redirectPostDetail p.id) ∧
    (∀ p, db.findPost pk = some p → p.author ≠ u →
      postDeleteDispatch db (.auth u) pk = .forbidden) ∧
    (∀ c, commentGetObject db ppk cpk = some c → c.author ≠ u →
      commentMutationDispatch db (.auth u) ppk cpk = .forbidden) := by
  refine ⟨?_, ?_, ?_⟩
  · intro p hp hne
    unfold postUpdateDispatch
    rw [hp]
    simp [authorEq, Ne.symm hne]
  · intro p hp hne
    unfold postDeleteDispatch
    rw [hp]
    simp [authorEq, Ne.symm hne]
  · intro c hc hne
    unfold commentMutationDispatch
    rw [hc]
    simp [authorEq, Ne.symm hne]

/-- C3 witness: the amended deny presentations at the concrete store. -/
theorem C3_witness :
    postUpdateDispatch dbC3 (.auth 2) 3 = .redirectPostDetail pA.id ∧
      postDeleteDispatch dbC3 (.auth 2) 3 = .forbidden ∧
      commentMutationDispatch dbC3 (.auth 2) 3 1 = .forbidden :=
  ⟨(C3_deny_presentations dbC3 2 3 3 1).1 pA (by decide) (by decide),
   (C3_deny_presentations dbC3 2 3 3 1).2.1 pA (by decide) (by decide),
   (C3_deny_presentations dbC3 2 3 3 1).2.2 cA (by decide) (by decide)⟩

/-- C4 counterexample: the profile page of alice, as served to any
visitor, lists her unpublished post, which is not publicly visible
under either the spec's predicate or the feed's own filter. -/
theorem C4_counterexample :
    profileQueryset dbW "alice" = some [pv, pu] ∧
      publiclyVisibleSpec dbW 10 pu = false ∧
      postListFilter dbW 10 pu = false := by
  refine ⟨by decide, by decide, by decide⟩

/-- C4 amended: the public feed and the category page admit only posts
passing the published/past/category-published filter, but the profile
page applies no visibility filter at all: it returns exactly every
stored post of the profile user, unpublished and future posts
included. -/
theorem C4_list_filters (db : DB) (now : Nat) (slug uname : String) :
    (∀ p, p ∈ postListQueryset db now → postListFilter db now p = true) ∧
    (∀ l p, categoryQueryset db now slug = some l → p ∈ l →
      p.is_published = true ∧ p.pub_date < now ∧
        categoryJoinPublished db p = true) ∧
    (∀ u, db.findUserByName uname = some u →
      profileQueryset db uname =
        some (db.posts.filter (fun p => p.author == u.id))) := by
  refine ⟨?_, ?_, ?_⟩
  · intro p hp
    exact List.of_mem_filter hp
  · intro l p hl hp
    unfold categoryQueryset at hl
    cases hfind : db.categories.find?
        (fun c => c.slug == slug && c.is_published) with
    | none => rw [hfind] at hl; exact absurd hl (by simp)
    | some cat =>
      rw [hfind] at hl
      have hl2 : l = db.posts.filter (fun p =>
          p.category == some cat.id && decide (p.pub_date < now)
            && categoryJoinPublished db p && p.is_published) := by
        injection hl with h
        exact h.symm
      subst hl2
      have hmem := List.of_mem_filter hp
      simp only [Bool.and_eq_true, decide_eq_true_eq] at hmem
      exact ⟨hmem.2, hmem.1.1.2, hmem.1.2⟩
  · intro u hu
    unfold profileQueryset
    rw [hu]

/-- C4 witness: the three list queries at the concrete store. -/
theorem C4_witness :
    postListFilter dbW 10 pv = true ∧
      (pv.is_published = true ∧ pv.pub_date < 10 ∧
        categoryJoinPublished dbW pv = true) ∧
      profileQueryset dbW "alice" =
        some (dbW.posts.filter (fun p => p.author == alice.id)) :=
  ⟨(C4_list_filters dbW 10 "news" "alice").1 pv (by decide),
   (C4_list_filters dbW 10 "news" "alice").2.1
     (dbW.posts.filter (fun p =>
       p.category == some catPub.id && decide (p.pub_date < 10)
         && categoryJoinPublished dbW p && p.is_published))
     pv (by decide) (by decide),
   (C4_list_filters dbW 10 "news" "alice").2.2 alice (by decide)⟩

/-- Two visible posts sharing one pub_date; q1 was inserted first. -/
def q1 : Post :=
  { id := 1, author := 1, category := some 10, is_published := true,
    pub_date := 7, text := "q1" }

def q2 : Post :=
  { id := 2, author := 1, category := some 10, is_published := true,
    pub_date := 7, text := "q2" }

def dbC5 : DB :=
  { users := [], categories := [catPub], posts := [q1, q2],
    comments := [] }

/-- C5 counterexample: with two equal-pub_date posts, the sequence
putting the later-inserted post first satisfies everything
`order_by("-pub_date")` requires of the rendered feed, yet violates the
claimed smaller-primary-key-first tie rule; the opposite sequence is
admissible too, so the rendered order is not deterministic. -/
theorem C5_counterexample :
    postListOrdered dbC5 8 [q2, q1] ∧
      ¬ List.Pairwise
          (fun a b => a.pub_date = b.pub_date → a.id < b.id) [q2, q1] ∧
      postListOrdered dbC5 8 [q1, q2] := by
  refine ⟨by decide, ?_, by decide⟩
  intro h
  have := List.rel_of_pairwise_cons h (List.mem_singleton.mpr rfl)
  exact absurd (this rfl) (by decide)

/-- C5 amended: the list query orders by pub_date descending and by
nothing else: every admissible rendering is non-increasing in pub_date,
and when two posts share a pub_date both relative orders are
admissible, so ties are not broken by insertion order and the rendered
order is not determined. -/
theorem C5_ordering (db : DB) (now : Nat) (out : List Post) :
    (postListOrdered db now out → sortedDescB out = true ∧
      out.Perm (postListQueryset db now)) ∧
    (postListOrdered dbC5 8 [q1, q2] ∧ postListOrdered dbC5 8 [q2, q1]) := by
  refine ⟨fun h => ⟨h.2, h.1⟩, by decide, by decide⟩

/-- C5 witness: the amended ordering statement at a concrete rendering
of the concrete store. -/
theorem C5_witness :
    sortedDescB [q2, q1] = true ∧
      List.Perm [q2, q1] (postListQueryset dbC5 8) :=
  (C5_ordering dbC5 8 [q2, q1]).1 (by decide)

/-- C6 counterexample: an anonymous requester hitting the delete entry
point of an existing post is answered with PermissionDenied, not with a
redirect to the login flow — the class-defined dispatch checks
authorship before LoginRequiredMixin runs, and the AnonymousUser is
never the author. -/
theorem C6_counterexample :
    postDeleteDispatch dbC3 .anonymous 3 = .forbidden ∧
      commentMutationDispatch dbC3 .anonymous 3 1 = .forbidden ∧
      postUpdateDispatch dbC3 .anonymous 3 = .redirectPostDetail 3 ∧
      Response.forbidden ≠ Response.redirectLogin := by
  refine ⟨by decide, by decide, by decide, by decide⟩

/-- C6 amended: an anonymous requester is redirected to login only at
post creation, and at comment creation when the addressed post exists;
at post edit it is redirected to the post's detail page, and at post
delete, comment edit and comment delete it receives a forbidden-action
error, because those views check authorship before the login check. -/
theorem C6_anonymous_outcomes (db : DB) (pk ppk cpk : Nat) :
    postCreateDispatch .anonymous = .redirectLogin ∧
    (∀ p, db.findPost pk = some p →
      commentCreateDispatch db .anonymous pk = .redirectLogin) ∧
    (∀ p, db.findPost pk = some p →
      postUpdateDispatch db .anonymous pk = .redirectPostDetail p.id) ∧
    (∀ p, db.findPost pk = some p →
      postDeleteDispatch db .anonymous pk = .forbidden) ∧
    (∀ c, commentGetObject db ppk cpk = some c →
      commentMutationDispatch db .anonymous ppk cpk = .forbidden) := by
  refine ⟨rfl, ?_, ?_, ?_, ?_⟩
  · intro p hp
    unfold commentCreateDispatch
    rw [hp]
  · intro p hp
    unfold postUpdateDispatch
    rw [hp]
    simp [authorEq]
  · intro p hp
    unfold postDeleteDispatch
    rw [hp]
    simp [authorEq]
  · intro c hc
    unfold commentMutationDispatch
    rw [hc]
    simp [authorEq]

/-- C6 witness: the anonymous outcomes at the concrete store. -/
theorem C6_witness :
    commentCreateDispatch dbC3 .anonymous 3 = .redirectLogin ∧
      postUpdateDispatch dbC3 .anonymous 3 = .redirectPostDetail pA.id ∧
      postDeleteDispatch dbC3 .anonymous 3 = .forbidden ∧
      commentMutationDispatch dbC3 .anonymous 3 1 = .forbidden :=
  ⟨(C6_anonymous_outcomes dbC3 3 3 1).2.1 pA (by decide),
   (C6_anonymous_outcomes dbC3 3 3 1).2.2.1 pA (by decide),
   (C6_anonymous_outcomes dbC3 3 3 1).2.2.2.1 pA (by decide),
   (C6_anonymous_outcomes dbC3 3 3 1).2.2.2.2 cA (by decide)⟩

/-- C7: a comment mutation target resolves only to a stored comment
whose id equals the requested comment id and whose post reference
equals the requested parent post id; when no stored comment matches
both, resolution fails and the dispatch answers 404. -/
theorem C7_comment_resolution (db : DB) (r : Requester) (ppk cpk : Nat) :
    (∀ c, commentGetObject db ppk cpk = some c →
      c ∈ db.comments ∧ c.id = cpk ∧ c.post_id = ppk) ∧
    (commentGetObject db ppk cpk = none ↔
      ∀ c ∈ db.comments, ¬(c.id = cpk ∧ c.post_id = ppk)) ∧
    (commentGetObject db ppk cpk = none →
      commentMutationDispatch db r ppk cpk = .notFound) := by
  refine ⟨?_, ?_, ?_⟩
  · intro c hc
    have hmem := List.mem_of_find?_eq_some hc
    have hpred := List.find?_some hc
    simp only [Bool.and_eq_true, beq_iff_eq] at hpred
    exact ⟨hmem, hpred.1, hpred.2⟩
  · unfold commentGetObject
    rw [List.find?_eq_none]
    constructor
    · intro h c hc hcontr
      have := h c hc
      simp [hcontr.1, hcontr.2] at this
    · intro h c hc
      have := h c hc
      simp only [Bool.and_eq_true, beq_iff_eq]
      tauto
  · intro h
    unfold commentMutationDispatch
    rw [h]

/-- C7 witness: the stored comment resolves under its own compound key,
and a valid comment id paired with a wrong parent post id yields 404. -/
theorem C7_witness :
    (cm1 ∈ dbW.comments ∧ cm1.id = 1 ∧ cm1.post_id = 1) ∧
      commentMutationDispatch dbW (.auth 1) 99 1 = .notFound :=
  ⟨(C7_comment_resolution dbW (.auth 1) 1 1).1 cm1 (by decide),
   (C7_comment_resolution dbW (.auth 1) 99 1).2.2 (by decide)⟩

/-- C8: comment creation by an authenticated user on post id pk fails
with 404 when no such post exists; otherwise the created comment's
author is the requester and its post reference is the resolved post,
and only the text comes from the submitted form — CommentForm carries
no other field. -/
theorem C8_comment_creation (db : DB) (u pk newId : Nat)
    (fd : CommentFormData) :
    (db.findPost pk = none →
      commentCreate db (.auth u) pk fd newId = .error .notFound) ∧
    (∀ p, db.findPost pk = some p →
      commentCreate db (.auth u) pk fd newId =
        .ok { id := newId, post_id := p.id, author := u,
              text := fd.text }) := by
  constructor
  · intro h
    unfold commentCreate
    rw [h]
  · intro p hp
    unfold commentCreate
    rw [hp]

/-- C8 witness: user 2 comments on the existing post 1 and on the
missing post 99. -/
theorem C8_witness :
    commentCreate dbW (.auth 2) 1 { text := "hi" } 3 =
        .ok { id := 3, post_id := pv.id, author := 2, text := "hi" } ∧
      commentCreate dbW (.auth 2) 99 { text := "hi" } 3 =
        .error .notFound :=
  ⟨(C8_comment_creation dbW 2 1 3 { text := "hi" }).2 pv (by decide),
   (C8_comment_creation dbW 2 99 3 { text := "hi" }).1 (by decide)⟩

/-- C9: in each of the three list views, the comment count annotated on
a listed post equals the total number of stored comments referencing
that post, counted with no visibility or authorship condition. -/
theorem C9_comment_counts (db : DB) (now : Nat) (slug uname : String)
    (p : Post) (n : Nat) :
    ((p, n) ∈ postListAnnotated db now →
      n = db.comments.countP (fun c => c.post_id == p.id)) ∧
    (∀ l, categoryAnnotated db now slug = some l → (p, n) ∈ l →
      n = db.comments.countP (fun c => c.post_id == p.id)) ∧
    (∀ l, profileAnnotated db uname = some l → (p, n) ∈ l →
      n = db.comments.countP (fun c => c.post_id == p.id)) := by
  have hcount : ∀ q : Post, commentCount db q =
      db.comments.countP (fun c => c.post_id == q.id) := by
    intro q
    rw [commentCount, List.countP_eq_length_filter]
  have hann : ∀ ps l, annotateCommentCount db ps = l → (p, n) ∈ l →
      n = db.comments.countP (fun c => c.post_id == p.id) := by
    intro ps l hl hp
    subst hl
    rcases List.mem_map.mp hp with ⟨q, _, hq⟩
    have hpq : q = p := congrArg Prod.fst hq
    have hnq : commentCount db q = n := congrArg Prod.snd hq
    subst hpq
    rw [← hnq]
    exact hcount q
  refine ⟨?_, ?_, ?_⟩
  · intro hp
    exact hann (postListQueryset db now) _ rfl hp
  · intro l hl hp
    unfold categoryAnnotated at hl
    cases hq : categoryQueryset db now slug with
    | none => rw [hq] at hl; exact absurd hl (by simp)
    | some ps =>
      rw [hq] at hl
      have : annotateCommentCount db ps = l := by
        injection hl
      exact hann ps l this hp
  · intro l hl hp
    unfold profileAnnotated at hl
    cases hq : profileQueryset db uname with
    | none => rw [hq] at hl; exact absurd hl (by simp)
    | some ps =>
      rw [hq] at hl
      have : annotateCommentCount db ps = l := by
        injection hl
      exact hann ps l this hp

/-- C9 witness: the feed lists post 1 with count 2, its two comments by
two different authors both counted. -/
theorem C9_witness :
    (pv, 2) ∈ postListAnnotated dbW 10 ∧
      2 = dbW.comments.countP (fun c => c.post_id == pv.id) :=
  ⟨by decide,
   (C9_comment_counts dbW 10 "news" "alice" pv 2).1 (by decide)⟩

/-- C10: for any authenticated requester whatsoever, the profile-edit
entry point addressed by any existing username resolves that user and
writes the submitted username, first name, last name and email onto
that user's row; the requesting identity is never compared with the
target, so any authenticated requester can edit any profile. -/
theorem C10_profile_update (db : DB) (v : Nat) (uname : String)
    (fd : ProfileFormData) (target : User)
    (ht : db.findUserByName uname = some target) :
    (profileUpdate db (.auth v) uname fd).1 = .ok ∧
    ∃ u ∈ (profileUpdate db (.auth v) uname fd).2,
      u.id = target.id ∧ u.username = fd.username ∧
      u.first_name = fd.first_name ∧ u.last_name = fd.last_name ∧
      u.email = fd.email := by
  have ht2 : db.users.find? (fun u => u.username == uname) = some target :=
    ht
  have hmem : target ∈ db.users := List.mem_of_find?_eq_some ht2
  unfold profileUpdate
  rw [ht]
  refine ⟨rfl, ?_⟩
  refine ⟨_, List.mem_map_of_mem _ hmem, ?_⟩
  simp

/-- C10 witness: requester 99, who is not alice, successfully rewrites
the profile fields of alice. -/
theorem C10_witness :
    (profileUpdate dbW (.auth 99) "alice"
        { username := "mallory", first_name := "M", last_name := "X",
          email := "m@x" }).1 = .ok ∧
    ∃ u ∈ (profileUpdate dbW (.auth 99) "alice"
        { username := "mallory", first_name := "M", last_name := "X",
          email := "m@x" }).2,
      u.id = alice.id ∧ u.username = "mallory" ∧ u.first_name = "M" ∧
      u.last_name = "X" ∧ u.email = "m@x" :=
  C10_profile_update dbW 99 "alice"
    { username := "mallory", first_name := "M", last_name := "X",
      email := "m@x" } alice (by decide)

end Blogicum
